import Mathlib

/-!
Shallow embedding of the Swappo Chat service core (src/http_client.py,
src/main.py, src/models.py) and proofs about its specified properties.

Conventions of the embedding:
* timestamps are natural numbers; every operation that the source stamps
  with the current wall-clock time receives an explicit `now` argument;
* the relational store is a `DBState` value: the two tables as Lean lists
  together with the autoincrement counters for the primary keys;
* SQLAlchemy queries become list operations: `.filter(...).first()` is
  `List.find?`, a filtered bulk `.update(...)` maps a row transformer over
  the rows matching the filter, counts are lengths of filtered lists;
* each endpoint returns `Except ApiError result × DBState`; raising an
  `HTTPException` corresponds to returning `.error e` together with the
  unmodified input state (in the source every raise happens before any
  mutation of the session);
* the outcome of one HTTP POST to the notification service is an
  `HttpOutcome`; a whole dispatch receives an oracle `Nat → HttpOutcome`
  giving the transport outcome each attempt would observe.
-/

/-- Message delivery status enum (models.MessageStatus).  The Python enum is
a str-Enum whose three values are the nonempty strings sent, delivered and
read; in particular every member is truthy. -/
inductive MessageStatus where
  | sent
  | delivered
  | read
deriving DecidableEq, Repr

/-- Row of the chat_rooms table (models.ChatRoomDB).  The created_at and
updated_at bookkeeping columns are omitted: no specified property mentions
them. -/
structure ChatRoomDB where
  id : Nat
  trade_offer_id : Nat
  user1_id : String
  user2_id : String
  is_active : Bool
  last_message_at : Option Nat
deriving DecidableEq, Repr

/-- Row of the messages table (models.MessageDB), with created_at kept
(listing order depends on it) and updated_at omitted. -/
structure MessageDB where
  id : Nat
  chat_room_id : Nat
  sender_id : String
  content : String
  status : MessageStatus
  read_at : Option Nat
  created_at : Nat
deriving DecidableEq, Repr

/-- The durable store: both tables plus the autoincrement counters that the
database assigns primary keys from. -/
structure DBState where
  rooms : List ChatRoomDB
  messages : List MessageDB
  nextRoomId : Nat
  nextMessageId : Nat
deriving DecidableEq, Repr

/-- The empty store, before any request. -/
def initialState : DBState := ⟨[], [], 1, 1⟩

/-- Request body for POST /api/v1/chat-rooms (models.ChatRoomCreate). -/
structure ChatRoomCreate where
  trade_offer_id : Nat
  user1_id : String
  user2_id : String
deriving DecidableEq, Repr

/-- Request body for POST /api/v1/messages (models.MessageCreate). -/
structure MessageCreate where
  chat_room_id : Nat
  sender_id : String
  content : String
deriving DecidableEq, Repr

/-- Request body for PATCH /api/v1/messages/id (models.MessageUpdate): an
optional status.  None models an absent or null field. -/
structure MessageUpdate where
  status : Option MessageStatus
deriving DecidableEq, Repr

/-- Response of GET /api/v1/statistics (models.ChatStatistics). -/
structure ChatStatistics where
  total_rooms : Nat
  active_rooms : Nat
  total_messages : Nat
  total_unread_messages : Nat
deriving DecidableEq, Repr

/-- The error taxonomy of the spec, each constructor mapped to the concrete
HTTPException the source raises:
* notFound: status 404 (room or message absent);
* conflict: status 400, detail Chat room already exists for trade offer
  (main.create_chat_room);
* invalidState: status 400, detail Chat room is not active
  (main.send_message);
* forbidden: status 400, detail Sender or User is not a participant in this
  chat room (main.send_message, main.mark_messages_as_read). -/
inductive ApiError where
  | notFound
  | conflict
  | invalidState
  | forbidden
deriving DecidableEq, Repr

/-- HTTP status code each taxonomy error is surfaced with. -/
def ApiError.http_status : ApiError → Nat
  | .notFound => 404
  | .conflict => 400
  | .invalidState => 400
  | .forbidden => 400

/-! ### http_client.py -/

/-- Transport outcome of a single HTTP POST attempt: either a response with
a status code, or an httpx.RequestError (connection failure, timeout). -/
inductive HttpOutcome where
  | ok (status_code : Nat)
  | transportError
deriving DecidableEq, Repr

/-- The two httpx exception classes named in retry_if_exception_type of the
tenacity decorator on send_notification_with_retry. -/
inductive RetryableError where
  | requestError
  | httpStatusError
deriving DecidableEq, Repr

/-- Result of the decorated call as its caller sees it: a returned boolean,
or the RetryError tenacity raises after exhausting attempts with
reraise set to False. -/
inductive DispatchResult where
  | value (b : Bool)
  | retryError
deriving DecidableEq, Repr

/-- httpx raise_for_status raises HTTPStatusError exactly when the response
status is not a 2xx success. -/
def is_success (status_code : Nat) : Bool :=
  200 ≤ status_code && status_code < 300

/-- The body of send_notification_with_retry inside the try block
(http_client.py lines 33-42): POST, then return True on 201, otherwise
raise_for_status and return False. -/
def attempt_inner (o : HttpOutcome) : Except RetryableError Bool :=
  match o with
  | .transportError => .error .requestError
  | .ok sc =>
    if sc = 201 then .ok true
    else if is_success sc then .ok false
    else .error .httpStatusError

/-- The full function body (http_client.py lines 32-46): the blanket
except Exception clause catches every exception raised inside the try
block, including the two retryable httpx exception types, and converts it
into a returned False.  Consequently the body never lets an exception
escape to the tenacity wrapper. -/
def attempt_body (o : HttpOutcome) : Except RetryableError Bool :=
  match attempt_inner o with
  | .ok b => .ok b
  | .error _ => .ok false

/-- The tenacity retry loop with retry_if_exception_type on the two httpx
exception types, stop_after_attempt 3 and reraise False: call the wrapped
body; a returned value ends the loop; a retryable exception consumes one
attempt and, once the stop condition is met, surfaces as RetryError.
Arguments: the per-attempt transport oracle, the index of the current
attempt, and the number of attempts still allowed.  The result carries the
total number of attempts actually made. -/
def tenacity_run (oracle : Nat → HttpOutcome) : Nat → Nat → DispatchResult × Nat
  | i, 0 => (.retryError, i)
  | i, fuel + 1 =>
    match attempt_body (oracle i) with
    | .ok b => (.value b, i + 1)
    | .error _ =>
      if fuel = 0 then (.retryError, i + 1)
      else tenacity_run oracle (i + 1) fuel

/-- send_notification_with_retry (http_client.py lines 15-46): the body
above wrapped in the tenacity policy with at most 3 attempts. -/
def send_notification_with_retry (oracle : Nat → HttpOutcome) : DispatchResult × Nat :=
  tenacity_run oracle 0 3

/-! ### main.py endpoint operations -/

/-- POST /api/v1/chat-rooms (main.create_chat_room, lines 189-221): reject
with the already-exists error when some room carries the requested trade
offer id, otherwise insert an active room with null last-message
timestamp. -/
def create_chat_room (s : DBState) (req : ChatRoomCreate) :
    Except ApiError ChatRoomDB × DBState :=
  match s.rooms.find? (fun r => r.trade_offer_id == req.trade_offer_id) with
  | some _ => (.error .conflict, s)
  | none =>
    let room : ChatRoomDB :=
      { id := s.nextRoomId
        trade_offer_id := req.trade_offer_id
        user1_id := req.user1_id
        user2_id := req.user2_id
        is_active := true
        last_message_at := none }
    (.ok room,
      { s with rooms := s.rooms ++ [room], nextRoomId := s.nextRoomId + 1 })

/-- PATCH /api/v1/chat-rooms/id/deactivate (main.deactivate_chat_room,
lines 370-388): set is_active to False on the row with the given primary
key. -/
def deactivate_chat_room (s : DBState) (chat_room_id : Nat) :
    Except ApiError ChatRoomDB × DBState :=
  match s.rooms.find? (fun r => r.id == chat_room_id) with
  | none => (.error .notFound, s)
  | some room =>
    (.ok { room with is_active := false },
      { s with rooms := s.rooms.map fun r =>
          if r.id == chat_room_id then { r with is_active := false } else r })

/-- POST /api/v1/messages (main.send_message, lines 409-463): resolve the
room (404 when absent), reject an inactive room, reject a sender that is
not one of the two participants, then insert the message with status sent,
stamp the room last_message_at with now, and dispatch the notification to
the other participant, discarding its result.

The primary-key write chat_room.last_message_at = func.now() is modelled by
transforming every row carrying that id; primary keys are unique, so this
coincides with mutating the single fetched row. -/
def send_message (s : DBState) (req : MessageCreate) (now : Nat)
    (oracle : Nat → HttpOutcome) : Except ApiError MessageDB × DBState :=
  match s.rooms.find? (fun r => r.id == req.chat_room_id) with
  | none => (.error .notFound, s)
  | some chat_room =>
    if !chat_room.is_active then (.error .invalidState, s)
    else if req.sender_id ∉ [chat_room.user1_id, chat_room.user2_id] then
      (.error .forbidden, s)
    else
      let db_message : MessageDB :=
        { id := s.nextMessageId
          chat_room_id := req.chat_room_id
          sender_id := req.sender_id
          content := req.content
          status := .sent
          read_at := none
          created_at := now }
      let recipient_id :=
        if req.sender_id = chat_room.user1_id then chat_room.user2_id
        else chat_room.user1_id
      let _notified := send_notification_with_retry oracle
      let _ := recipient_id
      (.ok db_message,
        { s with
            messages := s.messages ++ [db_message]
            rooms := s.rooms.map fun r =>
              if r.id == req.chat_room_id then { r with last_message_at := some now }
              else r
            nextMessageId := s.nextMessageId + 1 })

/-- The status and read-timestamp change update_message applies to the
fetched row (main.update_message, lines 560-564): with no status supplied
the Python truthiness test on the optional enum fails and nothing is
written; with a status supplied the status is written unconditionally, and
read_at is stamped only on a transition into read while read_at is still
null. -/
def apply_message_update (upd : MessageUpdate) (now : Nat) (m : MessageDB) :
    MessageDB :=
  match upd.status with
  | none => m
  | some st =>
    if st = .read ∧ m.read_at = none then
      { m with status := st, read_at := some now }
    else
      { m with status := st }

/-- PATCH /api/v1/messages/id (main.update_message, lines 546-569): 404
when the message is absent, otherwise apply the update to the row with the
given primary key and return the refreshed row. -/
def update_message (s : DBState) (message_id : Nat) (upd : MessageUpdate)
    (now : Nat) : Except ApiError MessageDB × DBState :=
  match s.messages.find? (fun m => m.id == message_id) with
  | none => (.error .notFound, s)
  | some m =>
    (.ok (apply_message_update upd now m),
      { s with messages := s.messages.map fun x =>
          if x.id == message_id then apply_message_update upd now x else x })

/-- Filter of the bulk update in mark_messages_as_read (main.py lines
609-619): messages of the room, from the other participant, not already
read. -/
def unread_from_other (chat_room_id : Nat) (user_id : String) (m : MessageDB) :
    Bool :=
  m.chat_room_id == chat_room_id && m.sender_id != user_id
    && !(m.status == MessageStatus.read)

/-- PATCH /api/v1/messages/mark-read (main.mark_messages_as_read, lines
582-623): 404 when the room is absent, participant check, then one bulk
update setting status read and read_at now on every matching row,
returning the row count. -/
def mark_messages_as_read (s : DBState) (chat_room_id : Nat) (user_id : String)
    (now : Nat) : Except ApiError Nat × DBState :=
  match s.rooms.find? (fun r => r.id == chat_room_id) with
  | none => (.error .notFound, s)
  | some chat_room =>
    if user_id ∉ [chat_room.user1_id, chat_room.user2_id] then
      (.error .forbidden, s)
    else
      let updated_count :=
        (s.messages.filter (unread_from_other chat_room_id user_id)).length
      (.ok updated_count,
        { s with messages := s.messages.map fun m =>
            if unread_from_other chat_room_id user_id m then
              { m with status := .read, read_at := some now }
            else m })

/-- The participant filter of GET /api/v1/chat-rooms (main.list_chat_rooms,
lines 248-250): the user is either participant of the room. -/
def is_participant_room (user_id : String) (r : ChatRoomDB) : Bool :=
  r.user1_id == user_id || r.user2_id == user_id

/-- Comparison realising order_by desc last_message_at (main.py line 256):
non-null timestamps in descending order.  Modelled from the spec for the
placement of null timestamps: the database engine configuration
(database.py) is not part of the sources, and the spec states that rooms
with no messages sort last, treated as earliest. -/
def room_le (r1 r2 : ChatRoomDB) : Bool :=
  match r1.last_message_at, r2.last_message_at with
  | some a, some b => b ≤ a
  | some _, none => true
  | none, some _ => false
  | none, none => true

/-- GET /api/v1/chat-rooms (main.list_chat_rooms, lines 233-300): rooms of
the user, optionally restricted to active ones, ordered by last-message
timestamp descending, paginated with offset skip and the limit.  The
per-room enrichment of lines 261-298 (last-message preview and unread
count) decorates each returned room and does not change which rooms are
returned nor their order, so the embedding returns the room rows. -/
def list_chat_rooms (s : DBState) (user_id : String) (active_only : Bool)
    (skip limit : Nat) : List ChatRoomDB :=
  let q := s.rooms.filter (is_participant_room user_id)
  let q := if active_only then q.filter (fun r => r.is_active) else q
  ((q.mergeSort room_le).drop skip).take limit

/-- The global branch of GET /api/v1/statistics (main.get_statistics, lines
696-709): counts over all rooms and all messages. -/
def global_statistics (s : DBState) : ChatStatistics :=
  { total_rooms := s.rooms.length
    active_rooms := (s.rooms.filter (fun r => r.is_active)).length
    total_messages := s.messages.length
    total_unread_messages :=
      (s.messages.filter (fun m => !(m.status == MessageStatus.read))).length }

/-- The user branch of GET /api/v1/statistics (main.get_statistics, lines
648-695): counts restricted to the rooms where the user participates; the
message counts are computed against the collected room id list and
short-circuit to 0 when that list is empty. -/
def user_statistics (s : DBState) (user_id : String) : ChatStatistics :=
  let room_ids := (s.rooms.filter (is_participant_room user_id)).map (fun r => r.id)
  { total_rooms := (s.rooms.filter (is_participant_room user_id)).length
    active_rooms :=
      (s.rooms.filter (fun r => is_participant_room user_id r && r.is_active)).length
    total_messages :=
      if room_ids.isEmpty then 0
      else (s.messages.filter (fun m => room_ids.contains m.chat_room_id)).length
    total_unread_messages :=
      if room_ids.isEmpty then 0
      else (s.messages.filter (fun m =>
        room_ids.contains m.chat_room_id && m.sender_id != user_id
          && !(m.status == MessageStatus.read))).length }

/-- GET /api/v1/statistics (main.get_statistics, lines 638-716).  The
Python guard is the truthiness test if user_id, so both an absent
parameter and an empty string select the global branch. -/
def get_statistics (s : DBState) (user_id : Option String) : ChatStatistics :=
  match user_id with
  | some u => if u = "" then global_statistics s else user_statistics s u
  | none => global_statistics s

/-! ### Reachable states

One mutating request of the service, with arbitrary request data and
timestamp.  Read-only endpoints do not change the store, and a request
that ends in an HTTPException leaves the store as it was (all raises
happen before any mutation), so only the successful mutating requests
generate new states. -/

inductive Step : DBState → DBState → Prop where
  | create (s : DBState) (req : ChatRoomCreate) (room : ChatRoomDB) (s₂ : DBState) :
      create_chat_room s req = (.ok room, s₂) → Step s s₂
  | deactivate (s : DBState) (chat_room_id : Nat) (room : ChatRoomDB) (s₂ : DBState) :
      deactivate_chat_room s chat_room_id = (.ok room, s₂) → Step s s₂
  | send (s : DBState) (req : MessageCreate) (now : Nat)
      (oracle : Nat → HttpOutcome) (m : MessageDB) (s₂ : DBState) :
      send_message s req now oracle = (.ok m, s₂) → Step s s₂
  | update (s : DBState) (message_id : Nat) (upd : MessageUpdate) (now : Nat)
      (m : MessageDB) (s₂ : DBState) :
      update_message s message_id upd now = (.ok m, s₂) → Step s s₂
  | markRead (s : DBState) (chat_room_id : Nat) (user_id : String) (now : Nat)
      (n : Nat) (s₂ : DBState) :
      mark_messages_as_read s chat_room_id user_id now = (.ok n, s₂) → Step s s₂

/-- States the service can reach from the empty store through its public
operations. -/
inductive Reachable : DBState → Prop where
  | init : Reachable initialState
  | step {s s₂ : DBState} : Reachable s → Step s s₂ → Reachable s₂

/-! ### Concrete example states

A small concrete history used by counterexamples and witnesses: create a
room for trade offer 1 between users a and b, have a send the message hi
at time 10, have b mark the room read at time 20, then move the message
back to status sent at time 30, illustrating the backward transition
update_message permits.  A second branch deactivates the freshly created
room. -/

/-- The room created for trade offer 1 between a and b. -/
def exRoom : ChatRoomDB := ⟨1, 1, "a", "b", true, none⟩

/-- Store after creating exRoom in the empty store. -/
def exS1 : DBState := ⟨[exRoom], [], 2, 1⟩

/-- The message hi sent by a at time 10. -/
def exMsg : MessageDB := ⟨1, 1, "a", "hi", .sent, none, 10⟩

/-- Store after a sent hi at time 10: the room is stamped with the send
time. -/
def exS2 : DBState := ⟨[⟨1, 1, "a", "b", true, some 10⟩], [exMsg], 2, 2⟩

/-- The message after b marked the room read at time 20. -/
def exMsgRead : MessageDB := ⟨1, 1, "a", "hi", .read, some 20, 10⟩

/-- Store after b marked the room read at time 20. -/
def exS3 : DBState := ⟨[⟨1, 1, "a", "b", true, some 10⟩], [exMsgRead], 2, 2⟩

/-- The message after update_message moved it back to sent at time 30: the
read timestamp survives while the status no longer reads read. -/
def exMsgRegressed : MessageDB := ⟨1, 1, "a", "hi", .sent, some 20, 10⟩

/-- Store after the backward status update at time 30. -/
def exS4 : DBState := ⟨[⟨1, 1, "a", "b", true, some 10⟩], [exMsgRegressed], 2, 2⟩

/-- exRoom after deactivation. -/
def exRoomInactive : ChatRoomDB := ⟨1, 1, "a", "b", false, none⟩

/-- Store after creating exRoom and then deactivating it. -/
def exS1d : DBState := ⟨[exRoomInactive], [], 2, 1⟩

/-- The read-timestamp/status invariant of the spec, both directions: a
message reads status read exactly when its read timestamp is set. -/
def read_iff_read_at (s : DBState) : Prop :=
  ∀ m ∈ s.messages, (m.status = MessageStatus.read ↔ m.read_at ≠ none)

/-- The forward direction alone: a message with status read always carries
a read timestamp. -/
def read_implies_read_at (s : DBState) : Prop :=
  ∀ m ∈ s.messages, m.status = MessageStatus.read → m.read_at ≠ none

/-! ### Helper lemmas -/

theorem reachable_exS1 : Reachable exS1 :=
  .step .init (.create initialState ⟨1, "a", "b"⟩ exRoom exS1 rfl)

theorem reachable_exS2 : Reachable exS2 :=
  .step reachable_exS1
    (.send exS1 ⟨1, "a", "hi"⟩ 10 (fun _ => .ok 201) exMsg exS2 rfl)

theorem reachable_exS3 : Reachable exS3 :=
  .step reachable_exS2 (.markRead exS2 1 "b" 20 1 exS3 rfl)

theorem reachable_exS4 : Reachable exS4 :=
  .step reachable_exS3 (.update exS3 1 ⟨some .sent⟩ 30 exMsgRegressed exS4 rfl)

theorem reachable_exS1d : Reachable exS1d :=
  .step reachable_exS1 (.deactivate exS1 1 exRoomInactive exS1d rfl)

/-- The blanket except clause converts every exception raised inside the
try block into a returned False, so the body always returns normally, with
True exactly on a 201 response. -/
theorem attempt_body_eq (o : HttpOutcome) :
    attempt_body o = .ok (decide (o = HttpOutcome.ok 201)) := by
  cases o with
  | transportError => rfl
  | ok sc =>
    have hde : decide (HttpOutcome.ok sc = HttpOutcome.ok 201) = decide (sc = 201) := by
      by_cases h : sc = 201
      · subst h; rfl
      · rw [decide_eq_false h, decide_eq_false]
        intro hc
        cases hc
        exact h rfl
    by_cases h : sc = 201
    · subst h; rfl
    · by_cases hs : is_success sc = true
      · simp [attempt_body, attempt_inner, h, hs, hde]
      · simp [attempt_body, attempt_inner, h, hs, hde]

/-- Because the body never lets an exception reach the tenacity wrapper,
the retry loop always stops after the first attempt and returns the value
of that attempt. -/
theorem send_notification_with_retry_eq (oracle : Nat → HttpOutcome) :
    send_notification_with_retry oracle =
      (.value (decide (oracle 0 = HttpOutcome.ok 201)), 1) := by
  show tenacity_run oracle 0 3 = _
  unfold tenacity_run
  rw [attempt_body_eq]

/-- C1: the claim says every dispatch makes up to 3 total attempts, a
failed attempt (transport error or non-success status) triggering another
one.  In the code the blanket except clause inside the function body
swallows exactly the exceptions the tenacity decorator is configured to
retry on, so the decorator never observes a failure: the dispatch makes
exactly one attempt for every transport behaviour, and in particular an
endpoint answering HTTP 500 produces a single attempt returning False
instead of two retries. -/
theorem dispatch_makes_single_attempt :
    send_notification_with_retry (fun _ => HttpOutcome.ok 500) =
      (DispatchResult.value false, 1) ∧
    ∀ oracle : Nat → HttpOutcome, (send_notification_with_retry oracle).2 = 1 := by
  refine ⟨rfl, fun oracle => ?_⟩
  rw [send_notification_with_retry_eq]

/-- C2: the notification dispatch always returns a boolean and never
raises to its caller, and the result of send_message, once the message is
persisted, is the persisted message with status sent, identical under
every notification outcome. -/
theorem send_message_unaffected_by_notification :
    (∀ oracle : Nat → HttpOutcome, ∃ b : Bool,
        send_notification_with_retry oracle = (DispatchResult.value b, 1)) ∧
    (∀ (s : DBState) (req : MessageCreate) (now : Nat)
        (oracle oracle₂ : Nat → HttpOutcome) (m : MessageDB) (s₂ : DBState),
        send_message s req now oracle = (.ok m, s₂) →
        m.status = MessageStatus.sent ∧
          send_message s req now oracle₂ = (.ok m, s₂)) := by
  constructor
  · intro oracle
    exact ⟨_, send_notification_with_retry_eq oracle⟩
  · intro s req now oracle oracle₂ m s₂ h
    have hsame : send_message s req now oracle₂ = send_message s req now oracle := rfl
    refine ⟨?_, hsame ▸ h⟩
    simp only [send_message] at h
    split at h
    · simp at h
    · split at h
      · simp at h
      · split at h
        · simp at h
        · simp only [Prod.mk.injEq, Except.ok.injEq] at h
          obtain ⟨hm, _⟩ := h
          subst hm
          rfl

/-- Witness for C2, realising the scenario of the spec: the endpoint
answers HTTP 500 on every attempt, and send_message still returns the
persisted message with status sent and the same updated store as under a
succeeding endpoint. -/
theorem send_message_unaffected_witness :
    MessageDB.status exMsg = MessageStatus.sent ∧
      send_message exS1 ⟨1, "a", "hi"⟩ 10 (fun _ => HttpOutcome.ok 201) =
        (.ok exMsg, exS2) :=
  send_message_unaffected_by_notification.2 exS1 ⟨1, "a", "hi"⟩ 10
    (fun _ => HttpOutcome.ok 500) (fun _ => HttpOutcome.ok 201) exMsg exS2 rfl

/-- C6: when the store already holds a room for the requested trade offer
id, create_chat_room fails with the conflict error and leaves the store,
the existing room included, exactly as it was. -/
theorem create_chat_room_conflict (s : DBState) (req : ChatRoomCreate)
    (r : ChatRoomDB) (hr : r ∈ s.rooms)
    (ht : r.trade_offer_id = req.trade_offer_id) :
    create_chat_room s req = (.error .conflict, s) := by
  have hsome : (s.rooms.find? (fun r => r.trade_offer_id == req.trade_offer_id)).isSome := by
    rw [List.find?_isSome]
    exact ⟨r, hr, by simp [ht]⟩
  obtain ⟨r₂, hr₂⟩ := Option.isSome_iff_exists.mp hsome
  simp only [create_chat_room, hr₂]

/-- Witness for C6: recreating the already created room of exS1, even with
other participants, is rejected with conflict and changes nothing. -/
theorem create_chat_room_conflict_witness :
    create_chat_room exS1 ⟨1, "c", "d"⟩ = (.error .conflict, exS1) :=
  create_chat_room_conflict exS1 ⟨1, "c", "d"⟩ exRoom (by decide) rfl

/-- C10: updating a message with no status supplied returns the stored
message unmodified and leaves the store unchanged. -/
theorem update_message_no_status_noop (s : DBState) (message_id : Nat)
    (now : Nat) (m : MessageDB)
    (h : s.messages.find? (fun x => x.id == message_id) = some m) :
    update_message s message_id ⟨none⟩ now = (.ok m, s) := by
  have happ : ∀ x : MessageDB, apply_message_update ⟨none⟩ now x = x := fun _ => rfl
  simp only [update_message, h, happ, ite_self, List.map_id, List.map_id']

/-- Witness for C10: a status-free update of the message of exS2 returns
it untouched and leaves the store untouched. -/
theorem update_message_no_status_noop_witness :
    update_message exS2 1 ⟨none⟩ 99 = (.ok exMsg, exS2) :=
  update_message_no_status_noop exS2 1 99 exMsg rfl

/-- After the bulk update of mark_messages_as_read, no row matches its
filter any more: an updated row now carries status read, and an untouched
row failed the filter already. -/
theorem unread_from_other_after_mark (rid : Nat) (u : String) (t : Nat)
    (m : MessageDB) :
    unread_from_other rid u
      (if unread_from_other rid u m then
        { m with status := MessageStatus.read, read_at := some t }
      else m) = false := by
  by_cases hm : unread_from_other rid u m = true
  · rw [if_pos hm]
    simp [unread_from_other]
  · rw [if_neg hm]
    simp only [Bool.not_eq_true] at hm
    exact hm

/-- C4: mark_messages_as_read is idempotent.  Whenever a call succeeds, an
immediately repeated call for the same room and user, at any later
timestamp and with no intervening operation, returns an updated count of 0
and leaves the store, every read timestamp included, exactly as the first
call left it. -/
theorem mark_read_zero (s : DBState) (rid : Nat) (u : String) (t : Nat)
    (room : ChatRoomDB)
    (hf : s.rooms.find? (fun r => r.id == rid) = some room)
    (hp : ¬ u ∉ [room.user1_id, room.user2_id])
    (hall : ∀ a ∈ s.messages, unread_from_other rid u a = false) :
    mark_messages_as_read s rid u t = (.ok 0, s) := by
  simp only [mark_messages_as_read, hf]
  rw [if_neg hp]
  have h1 : s.messages.filter (unread_from_other rid u) = [] :=
    List.filter_eq_nil_iff.mpr (fun a ha => by simp [hall a ha])
  have h2 : (s.messages.map (fun m =>
      if unread_from_other rid u m then
        { m with status := MessageStatus.read, read_at := some t }
      else m)) = s.messages := by
    conv_rhs => rw [← List.map_id' s.messages]
    apply List.map_congr_left
    intro a ha
    rw [if_neg]
    simp [hall a ha]
  rw [h1, h2]
  rfl

theorem mark_read_idempotent (s : DBState) (rid : Nat) (u : String)
    (t1 t2 : Nat) (n1 : Nat) (s1 : DBState)
    (h : mark_messages_as_read s rid u t1 = (.ok n1, s1)) :
    mark_messages_as_read s1 rid u t2 = (.ok 0, s1) := by
  simp only [mark_messages_as_read] at h
  split at h
  · simp at h
  · rename_i room hf
    split at h
    · simp at h
    · rename_i hp
      simp only [Prod.mk.injEq, Except.ok.injEq] at h
      obtain ⟨hn, hs1⟩ := h
      subst hs1
      refine mark_read_zero _ rid u t2 room hf hp ?_
      intro a ha
      obtain ⟨x, _, rfl⟩ := List.mem_map.mp ha
      exact unread_from_other_after_mark rid u t1 x

/-- Witness for C4: repeating the successful mark of exS2 (which updated
one message, yielding exS3) at a later time updates nothing. -/
theorem mark_read_idempotent_witness :
    mark_messages_as_read exS3 1 "b" 25 = (.ok 0, exS3) :=
  mark_read_idempotent exS2 1 "b" 20 25 1 exS3 rfl

/-- C5 counterexample: the participant check of send_message runs after
the active check, so on a reachable store holding a deactivated room a
non-participant sender is rejected with the inactive-room error, not with
the forbidden error the claim names for every room. -/
theorem send_nonparticipant_not_always_forbidden :
    Reachable exS1d ∧ exRoomInactive ∈ exS1d.rooms ∧
    "x" ∉ [exRoomInactive.user1_id, exRoomInactive.user2_id] ∧
    send_message exS1d ⟨1, "x", "hi"⟩ 5 (fun _ => HttpOutcome.ok 201) =
      (.error .invalidState, exS1d) ∧
    ApiError.invalidState ≠ ApiError.forbidden :=
  ⟨reachable_exS1d, by decide, by decide, rfl, by decide⟩

/-- C5 amended: a sendMessage call whose sender is not one of the room
participants always fails and leaves the store unchanged; the error is
forbidden when the room is active, and the earlier inactive-room error
otherwise. -/
theorem send_message_nonparticipant (s : DBState) (req : MessageCreate)
    (now : Nat) (oracle : Nat → HttpOutcome) (room : ChatRoomDB)
    (hfind : s.rooms.find? (fun r => r.id == req.chat_room_id) = some room)
    (hns : req.sender_id ∉ [room.user1_id, room.user2_id]) :
    send_message s req now oracle =
      (.error (if room.is_active then ApiError.forbidden else .invalidState), s) := by
  simp only [send_message, hfind]
  by_cases ha : room.is_active
  · rw [if_pos ha, if_neg (by simp [ha]), if_pos hns]
  · rw [if_neg ha, if_pos (by simp [ha])]

/-- Witness for the amended C5: on the active room of exS1 the outsider x
is rejected with forbidden and the store is untouched. -/
theorem send_message_nonparticipant_witness :
    send_message exS1 ⟨1, "x", "hi"⟩ 7 (fun _ => HttpOutcome.ok 201) =
      (.error .forbidden, exS1) := by
  have h := send_message_nonparticipant exS1 ⟨1, "x", "hi"⟩ 7
    (fun _ => HttpOutcome.ok 201) exRoom rfl (by decide)
  simpa [exRoom] using h

/-- apply_message_update preserves the forward invariant direction: a row
showing status read after the update carries a read timestamp, because the
timestamp is stamped on the transition into read and never cleared. -/
theorem apply_message_update_read_at (upd : MessageUpdate) (t : Nat)
    (x : MessageDB) (hx : x.status = MessageStatus.read → x.read_at ≠ none) :
    (apply_message_update upd t x).status = MessageStatus.read →
      (apply_message_update upd t x).read_at ≠ none := by
  obtain ⟨_ | st⟩ := upd
  · exact hx
  · dsimp only [apply_message_update]
    by_cases hc : st = MessageStatus.read ∧ x.read_at = none
    · rw [if_pos hc]
      intro _
      simp
    · rw [if_neg hc]
      intro hstat hnone
      exact hc ⟨hstat, hnone⟩

/-- Each successful mutating operation preserves the forward direction of
the read invariant. -/
theorem step_preserves_read_implies (s s₂ : DBState) (hstep : Step s s₂)
    (ih : read_implies_read_at s) : read_implies_read_at s₂ := by
  cases hstep with
  | create req room s₂ heq =>
    simp only [create_chat_room] at heq
    split at heq
    · simp at heq
    · simp only [Prod.mk.injEq, Except.ok.injEq] at heq
      obtain ⟨_, hs⟩ := heq
      subst hs
      exact ih
  | deactivate rid room s₂ heq =>
    simp only [deactivate_chat_room] at heq
    split at heq
    · simp at heq
    · simp only [Prod.mk.injEq, Except.ok.injEq] at heq
      obtain ⟨_, hs⟩ := heq
      subst hs
      exact ih
  | send req now oracle m s₂ heq =>
    simp only [send_message] at heq
    split at heq
    · simp at heq
    · split at heq
      · simp at heq
      · split at heq
        · simp at heq
        · simp only [Prod.mk.injEq, Except.ok.injEq] at heq
          obtain ⟨_, hs⟩ := heq
          subst hs
          intro x hx hread
          rcases List.mem_append.mp hx with hx₂ | hx₂
          · exact ih x hx₂ hread
          · simp only [List.mem_singleton] at hx₂
            subst hx₂
            simp at hread
  | update mid upd now m s₂ heq =>
    simp only [update_message] at heq
    split at heq
    · simp at heq
    · simp only [Prod.mk.injEq, Except.ok.injEq] at heq
      obtain ⟨_, hs⟩ := heq
      subst hs
      intro x hx hread
      obtain ⟨y, hy, rfl⟩ := List.mem_map.mp hx
      by_cases hid : (y.id == mid) = true
      · rw [if_pos hid] at hread ⊢
        exact apply_message_update_read_at upd now y (ih y hy) hread
      · rw [if_neg hid] at hread ⊢
        exact ih y hy hread
  | markRead rid uid now n s₂ heq =>
    simp only [mark_messages_as_read] at heq
    split at heq
    · simp at heq
    · split at heq
      · simp at heq
      · simp only [Prod.mk.injEq, Except.ok.injEq] at heq
        obtain ⟨_, hs⟩ := heq
        subst hs
        intro x hx hread
        obtain ⟨y, hy, rfl⟩ := List.mem_map.mp hx
        by_cases hu : unread_from_other rid uid y = true
        · rw [if_pos hu]
          simp
        · rw [if_neg hu] at hread ⊢
          exact ih y hy hread

/-- C3 amended: at every state reachable through the public operations,
status read implies a non-null read timestamp.  The converse direction of
the claimed iff fails because update_message can move a read message back
to sent or delivered without clearing read_at. -/
theorem read_status_forward_invariant (s : DBState) (h : Reachable s) :
    read_implies_read_at s := by
  induction h with
  | init =>
    intro m hm
    simp [initialState] at hm
  | step _ hstep ih => exact step_preserves_read_implies _ _ hstep ih

/-- Witness for the amended C3 at the reachable store exS3, which holds a
read message. -/
theorem read_status_forward_invariant_witness : read_implies_read_at exS3 :=
  read_status_forward_invariant exS3 reachable_exS3

/-- C3 counterexample: the store exS4 is reachable (create, send, mark
read, then update the message back to status sent) and violates the iff:
its message has status sent while read_at is still set to 20. -/
theorem read_iff_read_at_fails : Reachable exS4 ∧ ¬ read_iff_read_at exS4 := by
  refine ⟨reachable_exS4, fun hinv => ?_⟩
  have h1 := hinv exMsgRegressed (by decide)
  have h2 : exMsgRegressed.read_at ≠ none := by decide
  have h3 := h1.mpr h2
  exact absurd h3 (by decide)

/-- C8 counterexample: neither the request schema nor create_chat_room
checks that the two participant ids differ, so a room whose two
participants are the same user is created successfully from the empty
store. -/
theorem create_chat_room_equal_participants :
    create_chat_room initialState ⟨1, "u", "u"⟩ =
      (.ok ⟨1, 1, "u", "u", true, none⟩,
        ⟨[⟨1, 1, "u", "u", true, none⟩], [], 2, 1⟩) ∧
    (ChatRoomDB.mk 1 1 "u" "u" true none).user1_id =
      (ChatRoomDB.mk 1 1 "u" "u" true none).user2_id :=
  ⟨rfl, rfl⟩

/-- Fields of a room surviving a per-row transformation that never touches
id or the participant columns. -/
theorem exists_room_preserved (l : List ChatRoomDB) (f : ChatRoomDB → ChatRoomDB)
    (hf : ∀ x, (f x).id = x.id ∧ (f x).user1_id = x.user1_id ∧
      (f x).user2_id = x.user2_id)
    (r : ChatRoomDB) (hr : r ∈ l) :
    ∃ r₂ ∈ l.map f, r₂.id = r.id ∧ r₂.user1_id = r.user1_id ∧
      r₂.user2_id = r.user2_id :=
  ⟨f r, List.mem_map_of_mem f hr, (hf r).1, (hf r).2.1, (hf r).2.2⟩

/-- C8 amended: a room's participant ids are exactly the two ids supplied
at creation and are immutable under every operation of the service; the
claimed distinctness, however, is not enforced (see the counterexample
with two equal ids). -/
theorem participant_ids_fixed :
    (∀ (s : DBState) (req : ChatRoomCreate) (room : ChatRoomDB) (s₂ : DBState),
        create_chat_room s req = (.ok room, s₂) →
        room.user1_id = req.user1_id ∧ room.user2_id = req.user2_id) ∧
    (∀ (s s₂ : DBState), Step s s₂ → ∀ r ∈ s.rooms, ∃ r₂ ∈ s₂.rooms,
        r₂.id = r.id ∧ r₂.user1_id = r.user1_id ∧ r₂.user2_id = r.user2_id) := by
  constructor
  · intro s req room s₂ h
    simp only [create_chat_room] at h
    split at h
    · simp at h
    · simp only [Prod.mk.injEq, Except.ok.injEq] at h
      obtain ⟨hroom, _⟩ := h
      subst hroom
      exact ⟨rfl, rfl⟩
  · intro s s₂ hstep r hr
    cases hstep with
    | create req room s₂ heq =>
      simp only [create_chat_room] at heq
      split at heq
      · simp at heq
      · simp only [Prod.mk.injEq, Except.ok.injEq] at heq
        obtain ⟨_, hs⟩ := heq
        subst hs
        exact ⟨r, List.mem_append_left _ hr, rfl, rfl, rfl⟩
    | deactivate rid room s₂ heq =>
      simp only [deactivate_chat_room] at heq
      split at heq
      · simp at heq
      · simp only [Prod.mk.injEq, Except.ok.injEq] at heq
        obtain ⟨_, hs⟩ := heq
        subst hs
        refine exists_room_preserved s.rooms _ ?_ r hr
        intro x
        by_cases hx : (x.id == rid) = true
        · rw [if_pos hx]
          exact ⟨rfl, rfl, rfl⟩
        · rw [if_neg hx]
          exact ⟨rfl, rfl, rfl⟩
    | send req now oracle m s₂ heq =>
      simp only [send_message] at heq
      split at heq
      · simp at heq
      · split at heq
        · simp at heq
        · split at heq
          · simp at heq
          · simp only [Prod.mk.injEq, Except.ok.injEq] at heq
            obtain ⟨_, hs⟩ := heq
            subst hs
            refine exists_room_preserved s.rooms _ ?_ r hr
            intro x
            by_cases hx : (x.id == req.chat_room_id) = true
            · rw [if_pos hx]
              exact ⟨rfl, rfl, rfl⟩
            · rw [if_neg hx]
              exact ⟨rfl, rfl, rfl⟩
    | update mid upd now m s₂ heq =>
      simp only [update_message] at heq
      split at heq
      · simp at heq
      · simp only [Prod.mk.injEq, Except.ok.injEq] at heq
        obtain ⟨_, hs⟩ := heq
        subst hs
        exact ⟨r, hr, rfl, rfl, rfl⟩
    | markRead rid uid now n s₂ heq =>
      simp only [mark_messages_as_read] at heq
      split at heq
      · simp at heq
      · split at heq
        · simp at heq
        · simp only [Prod.mk.injEq, Except.ok.injEq] at heq
          obtain ⟨_, hs⟩ := heq
          subst hs
          exact ⟨r, hr, rfl, rfl, rfl⟩

/-- Witness for the amended C8: creating a room between u and v fixes the
participant columns to u and v. -/
theorem participant_ids_fixed_witness :
    (ChatRoomDB.mk 1 1 "u" "v" true none).user1_id = "u" ∧
      (ChatRoomDB.mk 1 1 "u" "v" true none).user2_id = "v" :=
  participant_ids_fixed.1 initialState ⟨1, "u", "v"⟩
    (ChatRoomDB.mk 1 1 "u" "v" true none)
    ⟨[ChatRoomDB.mk 1 1 "u" "v" true none], [], 2, 1⟩ rfl

set_option linter.unnecessarySeqFocus false in
/-- The room ordering is transitive. -/
theorem room_le_trans (a b c : ChatRoomDB) :
    room_le a b → room_le b c → room_le a c := by
  unfold room_le
  cases a.last_message_at <;> cases b.last_message_at <;>
    cases c.last_message_at <;> simp <;> omega

set_option linter.unnecessarySeqFocus false in
/-- The room ordering is total. -/
theorem room_le_total (a b : ChatRoomDB) : room_le a b || room_le b a := by
  unfold room_le
  cases a.last_message_at <;> cases b.last_message_at <;> simp <;> omega

/-- C7: the room listing is the offset/limit window of a sequence that is
a permutation of exactly the rooms where the user is one of the two
participants (restricted to the active ones when active_only is set) and
that is sorted by the descending last-message ordering with null
timestamps last. -/
theorem list_chat_rooms_spec (s : DBState) (u : String) (active_only : Bool)
    (skip limit : Nat) :
    ∃ full : List ChatRoomDB,
      full.Perm (s.rooms.filter fun r =>
        is_participant_room u r && (!active_only || r.is_active)) ∧
      full.Pairwise (fun a b => room_le a b = true) ∧
      list_chat_rooms s u active_only skip limit = (full.drop skip).take limit := by
  refine ⟨(if active_only then
      (s.rooms.filter (is_participant_room u)).filter (fun r => r.is_active)
    else s.rooms.filter (is_participant_room u)).mergeSort room_le, ?_, ?_, ?_⟩
  · refine (List.mergeSort_perm _ _).trans ?_
    cases active_only with
    | true =>
      rw [List.filter_filter]
      refine List.Perm.of_eq (List.filter_congr ?_)
      intro a _
      simp [Bool.and_comm]
    | false =>
      refine List.Perm.of_eq (List.filter_congr ?_)
      intro a _
      simp
  · exact List.sorted_mergeSort room_le_trans room_le_total _
  · rfl

/-- C9: statistics is a total function into four natural counters: on the
empty store the global counters are all 0; a user with no rooms gets all
four scoped counters 0; and the scoped unread counter counts exactly the
messages lying in one of the user's rooms whose sender is not the user and
whose status is not read (the empty-scope short circuit of the source
agrees with the uniform count). -/
theorem get_statistics_spec (s : DBState) (u : String) :
    get_statistics initialState none = ⟨0, 0, 0, 0⟩ ∧
    (u ≠ "" → s.rooms.filter (is_participant_room u) = [] →
      get_statistics s (some u) = ⟨0, 0, 0, 0⟩) ∧
    (u ≠ "" →
      (get_statistics s (some u)).total_unread_messages =
        (s.messages.filter fun m =>
          ((s.rooms.filter (is_participant_room u)).map (fun r => r.id)).contains
              m.chat_room_id
            && m.sender_id != u && !(m.status == MessageStatus.read)).length) := by
  refine ⟨rfl, ?_, ?_⟩
  · intro hu hempty
    have hall := List.filter_eq_nil_iff.mp hempty
    have hact : s.rooms.filter
        (fun r => is_participant_room u r && r.is_active) = [] := by
      rw [List.filter_eq_nil_iff]
      intro a ha
      simp [hall a ha]
    simp only [get_statistics, if_neg hu, user_statistics, hempty, hact]
    rfl
  · intro hu
    simp only [get_statistics, if_neg hu, user_statistics]
    by_cases hempty :
        ((s.rooms.filter (is_participant_room u)).map (fun r => r.id)).isEmpty
    · rw [if_pos hempty]
      have hnil : (s.rooms.filter (is_participant_room u)).map (fun r => r.id) = [] :=
        List.isEmpty_iff.mp hempty
      rw [hnil]
      simp
    · rw [if_neg hempty]

/-- Witness for C9: the store exS2 scoped to the uninvolved user z has all
four counters 0. -/
theorem get_statistics_witness :
    get_statistics exS2 (some "z") = ⟨0, 0, 0, 0⟩ :=
  (get_statistics_spec exS2 "z").2.1 (by decide) rfl
